import Mathlib

/-!
Verification development for the SMS-enablement script (enable_sms.py).

The script is a linear orchestration of four REST calls:
resolve deployment slug, list projects, fetch per-project details,
and PATCH a managed-scan configuration.  We embed it shallowly:

* JSON values returned by `resp.json()` become the inductive type `Json`;
  Python truthiness (`if not x`, `x or y`, `bool(...)`) is `Json.truthy`.
* A Python computation that can raise (attribute/type errors on
  non-dict `.get`, non-str `urllib.parse.quote`, bad indexing) or call
  `sys.exit` is a value of `Res α` (`ok` / `exit code` / `crash`).
* The network and the log are modelled by an oracle `Api` giving the
  response of each endpoint, and by a trace of `Event`s recorded by the
  program; `Prog α` pairs the trace with the `Res` outcome.  Percent
  encoding of the project name into the URL path is kept abstract: the
  oracle is keyed by the raw (slug, name) pair instead of the URL, and
  `urllib.parse.quote` contributes only its requirement that the name
  be a string (a non-string argument raises, hence `crash`).
-/

namespace EnableSms

/-- JSON values as produced by `resp.json()`.  Objects are association
lists; lookup takes the first binding, matching a parsed Python dict
(whose keys are unique). -/
inductive Json : Type
  | null : Json
  | bool : Bool → Json
  | num : Int → Json
  | str : String → Json
  | arr : List Json → Json
  | obj : List (String × Json) → Json

/-- Python truthiness of a JSON value: `None`, `False`, `0`, `""`, `[]`
and `{}` are falsy, everything else truthy. -/
def Json.truthy : Json → Bool
  | .null => false
  | .bool b => b
  | .num n => n != 0
  | .str s => s != ""
  | .arr xs => !xs.isEmpty
  | .obj kvs => !kvs.isEmpty

/-- First binding of key `k` in an association list (Python dict lookup). -/
def dictGet (kvs : List (String × Json)) (k : String) : Option Json :=
  (kvs.find? (fun kv => kv.1 == k)).map (fun kv => kv.2)

/-- Outcome of a Python computation: a value, a `sys.exit(code)`, or an
uncaught exception (`crash`). -/
inductive Res (α : Type) : Type
  | ok : α → Res α
  | exit : Nat → Res α
  | crash : Res α
  deriving DecidableEq, Repr

/-- Sequencing of fallible computations: `exit` and `crash` propagate. -/
def Res.bind {α β : Type} : Res α → (α → Res β) → Res β
  | .ok a, f => f a
  | .exit c, _ => .exit c
  | .crash, _ => .crash

/-- Python `d.get(k)` (default `None`): defined on dicts, raises —
`crash` — on any other value. -/
def Json.pyGet : Json → String → Res Json
  | .obj kvs, k => .ok ((dictGet kvs k).getD Json.null)
  | _, _ => .crash

/-- Python `a or b` on JSON values: `a` if truthy, else `b`. -/
def pyOr (a b : Json) : Json := if a.truthy then a else b

/-- Python `len(x)`: defined on lists, dicts and strings; raises on the
other JSON values. -/
def pyLen : Json → Res Nat
  | .arr xs => .ok xs.length
  | .obj kvs => .ok kvs.length
  | .str s => .ok s.length
  | _ => .crash

/-- Python `x[0]`: first element of a list, first character of a string;
raises on an empty list/string and on the other JSON values (a dict has
no key `0` here, its keys being strings). -/
def pyIndexZero : Json → Res Json
  | .arr (x :: _) => .ok x
  | .arr [] => .crash
  | .str s =>
    match s.data with
    | c :: _ => .ok (Json.str (String.mk [c]))
    | [] => .crash
  | _ => .crash

/-- Python `for x in j`: elements of a list, keys of a dict, characters
of a string; raises on the other JSON values. -/
def pyIter : Json → Res (List Json)
  | .arr xs => .ok xs
  | .obj kvs => .ok (kvs.map (fun kv => Json.str kv.1))
  | .str s => .ok (s.data.map (fun c => Json.str (String.mk [c])))
  | _ => .crash

/-- `urllib.parse.quote` requires a string argument; a non-string raises.
The percent-encoded spelling itself is kept abstract (the oracle is keyed
by the raw name). -/
def asPyStr : Json → Res String
  | .str s => .ok s
  | _ => .crash

/-- Python truthiness of an optional string (`None` and `""` are falsy). -/
def truthyOptStr : Option String → Bool
  | none => false
  | some s => s != ""

/-- Python `a or b` on optional strings. -/
def pyOrStrOpt (a b : Option String) : Option String :=
  if truthyOptStr a then a else b

/-- Observable events of a run: the HTTP requests issued and the log
lines the claims talk about. -/
inductive Event : Type
  | getDeployments : Event
  | warnMultiple : Event
  | getProjects : Json → Event
  | getDetail : Json → String → Event
  | warnDetailFailed : String → Event
  | warnNoName : Event
  | logSkip : Json → Event
  | logTodo : Json → Event
  | logDryRun : Json → String → Json → Event
  | patch : Json → String → Json → Event
  | logEnableError : String → Event
  | logEnableOk : String → Event

/-- An HTTP response: status code and parsed JSON body. -/
structure Response : Type where
  status : Nat
  body : Json

/-- Oracle for the remote service: the response of each endpoint the
script consumes, keyed by deployment slug value and raw project name. -/
structure Api : Type where
  deployments : Response
  projectsList : Json → Response
  projectDetail : Json → String → Response
  patchManagedScan : Json → String → Response

/-- A program step: the events it records plus its `Res` outcome. -/
abbrev Prog (α : Type) : Type := List Event × Res α

/-- Return a value, recording nothing. -/
def Prog.pure {α : Type} (a : α) : Prog α := ([], Res.ok a)

/-- Run a pure fallible computation, recording nothing. -/
def Prog.lift {α : Type} (r : Res α) : Prog α := ([], r)

/-- Record one event. -/
def Prog.emit (e : Event) : Prog Unit := ([e], Res.ok ())

/-- `sys.exit code`. -/
def Prog.exit {α : Type} (c : Nat) : Prog α := ([], Res.exit c)

/-- Sequencing of program steps: events accumulate in order; `exit` and
`crash` stop the run but keep the events already recorded. -/
def Prog.bind {α β : Type} : Prog α → (α → Prog β) → Prog β
  | (evs, Res.ok a), f => (evs ++ (f a).1, (f a).2)
  | (evs, Res.exit c), _ => (evs, Res.exit c)
  | (evs, Res.crash), _ => (evs, Res.crash)

/-- Events recorded by a program step. -/
def Prog.events {α : Type} (p : Prog α) : List Event := p.1

/-- Translation of `resolve_deployment_slug` (enable_sms.py lines 18-57).
A falsy `explicit_slug` (`None` or `""`) falls through to the network
path; otherwise the given slug is returned with no request made.  The
returned slug is whatever JSON value sat under the `slug` key. -/
def resolve_deployment_slug (api : Api) (explicit_slug : Option String) : Prog Json :=
  if truthyOptStr explicit_slug then
    Prog.pure (Json.str (explicit_slug.getD ""))
  else
    Prog.bind (Prog.emit Event.getDeployments) (fun _ =>
    let resp := api.deployments
    if resp.status ≠ 200 then Prog.exit 1
    else
      Prog.bind (Prog.lift (resp.body.pyGet "deployments")) (fun depRaw =>
      let deployments := pyOr depRaw (Json.arr [])
      if !deployments.truthy then Prog.exit 1
      else
        Prog.bind (Prog.lift (pyLen deployments)) (fun n =>
        Prog.bind (if n > 1 then Prog.emit Event.warnMultiple else Prog.pure ()) (fun _ =>
        Prog.bind (Prog.lift (pyIndexZero deployments)) (fun chosen =>
        Prog.bind (Prog.lift (chosen.pyGet "slug")) (fun slug =>
        if !slug.truthy then Prog.exit 1
        else Prog.pure slug))))))

/-- Translation of `get_all_projects` (lines 60-84): a non-200 response
is fatal; a list body is returned as-is; a dict body with a `projects`
key yields that key's value; anything else is fatal. -/
def get_all_projects (api : Api) (deployment_slug : Json) : Prog Json :=
  Prog.bind (Prog.emit (Event.getProjects deployment_slug)) (fun _ =>
  let resp := api.projectsList deployment_slug
  if resp.status ≠ 200 then Prog.exit 1
  else
    match resp.body with
    | Json.arr xs => Prog.pure (Json.arr xs)
    | Json.obj kvs =>
      match dictGet kvs "projects" with
      | some v => Prog.pure v
      | none => Prog.exit 1
    | _ => Prog.exit 1)

/-- Unwrapping step of `get_project_details` (lines 114-118): a dict
body with a `project` key yields that key's value, else the body. -/
def unwrap_project (data : Json) : Json :=
  match data with
  | Json.obj kvs =>
    match dictGet kvs "project" with
    | some v => v
    | none => Json.obj kvs
  | _ => data

/-- Translation of `get_project_details` (lines 87-118): the name is
percent-encoded (must be a string); a non-200 response logs a warning
and returns `None`; a 200 response is unwrapped. -/
def get_project_details (api : Api) (deployment_slug : Json) (project_name : Json) :
    Prog Json :=
  Prog.bind (Prog.lift (asPyStr project_name)) (fun encoded_name =>
  Prog.bind (Prog.emit (Event.getDetail deployment_slug encoded_name)) (fun _ =>
  let resp := api.projectDetail deployment_slug encoded_name
  if resp.status ≠ 200 then
    Prog.bind (Prog.emit (Event.warnDetailFailed encoded_name)) (fun _ =>
      Prog.pure Json.null)
  else
    Prog.pure (unwrap_project resp.body)))

/-- Translation of `project_has_sms_enabled` (lines 121-136).  Each
`.get` is a Python dict lookup (raises on a non-dict receiver); each
`or {}` replaces a falsy value by an empty dict; the final
`bool(diff_scan.get("enabled") and full_scan.get("enabled"))`
short-circuits, so the `full_scan` lookup of `enabled` only happens
when the `diff_scan` one was truthy. -/
def project_has_sms_enabled (project_details : Json) : Res Bool :=
  Res.bind (project_details.pyGet "managed_scan_config") (fun mscRaw =>
  let msc := pyOr mscRaw (Json.obj [])
  Res.bind (msc.pyGet "diff_scan") (fun diffRaw =>
  let diff_scan := pyOr diffRaw (Json.obj [])
  Res.bind (msc.pyGet "full_scan") (fun fullRaw =>
  let full_scan := pyOr fullRaw (Json.obj [])
  Res.bind (diff_scan.pyGet "enabled") (fun de =>
  if de.truthy then
    Res.bind (full_scan.pyGet "enabled") (fun fe => Res.ok fe.truthy)
  else
    Res.ok false))))

/-- The fixed PATCH body of `enable_sms_for_project` (lines 156-159). -/
def sms_payload : Json :=
  Json.obj [("diff_scan", Json.obj [("enabled", Json.bool true)]),
            ("full_scan", Json.obj [("enabled", Json.bool true)])]

/-- Translation of `enable_sms_for_project` (lines 139-173): the name is
percent-encoded first (so a non-string name raises even in dry-run);
dry-run only logs the would-be request; otherwise PATCH is issued and a
status other than 200/204 logs a per-project error, 200/204 an OK. -/
def enable_sms_for_project (api : Api) (deployment_slug : Json) (project_name : Json)
    (dry_run : Bool) : Prog Unit :=
  Prog.bind (Prog.lift (asPyStr project_name)) (fun encoded_name =>
  if dry_run then
    Prog.emit (Event.logDryRun deployment_slug encoded_name sms_payload)
  else
    Prog.bind (Prog.emit (Event.patch deployment_slug encoded_name sms_payload)) (fun _ =>
    let resp := api.patchManagedScan deployment_slug encoded_name
    if resp.status ≠ 200 ∧ resp.status ≠ 204 then
      Prog.emit (Event.logEnableError encoded_name)
    else
      Prog.emit (Event.logEnableOk encoded_name)))

/-- Name selection of the orchestrator loop (line 222):
`p.get("name") or p.get("project_name") or p.get("slug")`. -/
def select_project_name (p : Json) : Res Json :=
  Res.bind (p.pyGet "name") (fun n1 =>
  Res.bind (p.pyGet "project_name") (fun n2 =>
  Res.bind (p.pyGet "slug") (fun n3 =>
  Res.ok (pyOr n1 (pyOr n2 n3)))))

/-- Filtering loop of `main` (lines 220-235): per project, pick a name
(warn and continue if falsy), fetch details (skip if falsy), classify
via `project_has_sms_enabled`, and collect the names still to enable in
iteration order. -/
def filter_projects (api : Api) (deployment_slug : Json) : List Json → Prog (List Json)
  | [] => Prog.pure []
  | p :: rest =>
    Prog.bind (Prog.lift (select_project_name p)) (fun project_name =>
    if !project_name.truthy then
      Prog.bind (Prog.emit Event.warnNoName) (fun _ =>
        filter_projects api deployment_slug rest)
    else
      Prog.bind (get_project_details api deployment_slug project_name) (fun details =>
      if !details.truthy then filter_projects api deployment_slug rest
      else
        Prog.bind (Prog.lift (project_has_sms_enabled details)) (fun enabled =>
        if enabled then
          Prog.bind (Prog.emit (Event.logSkip project_name)) (fun _ =>
            filter_projects api deployment_slug rest)
        else
          Prog.bind (Prog.emit (Event.logTodo project_name)) (fun _ =>
          Prog.bind (filter_projects api deployment_slug rest) (fun tail =>
          Prog.pure (project_name :: tail))))))

/-- Enable pass of `main` (lines 240-246): one enable call per collected
project, in order. -/
def enable_pass (api : Api) (deployment_slug : Json) (dry_run : Bool) :
    List Json → Prog Unit
  | [] => Prog.pure ()
  | n :: rest =>
    Prog.bind (enable_sms_for_project api deployment_slug n dry_run) (fun _ =>
      enable_pass api deployment_slug dry_run rest)

/-- Translation of `main` (lines 176-246): token from the flag or the
environment (falsy is fatal), then resolve slug, list projects, print
their count (`len` can raise), iterate them, filter, and run the enable
pass. -/
def main (api : Api) (args_deployment_slug args_api_token env_api_token : Option String)
    (args_dry_run : Bool) : Prog Unit :=
  let api_token := pyOrStrOpt args_api_token env_api_token
  if !truthyOptStr api_token then Prog.exit 1
  else
    Prog.bind (resolve_deployment_slug api args_deployment_slug) (fun deployment_slug =>
    Prog.bind (get_all_projects api deployment_slug) (fun projects =>
    Prog.bind (Prog.lift (pyLen projects)) (fun _ =>
    Prog.bind (Prog.lift (pyIter projects)) (fun ps =>
    Prog.bind (filter_projects api deployment_slug ps) (fun to_enable =>
    enable_pass api deployment_slug args_dry_run to_enable)))))

/-- Exit status of the whole process: 0 on a completed run, the code of
a `sys.exit`, and 1 for an uncaught exception. -/
def process_exit_code {α : Type} : Prog α → Nat
  | (_, Res.ok _) => 0
  | (_, Res.exit c) => c
  | (_, Res.crash) => 1

/-- Is this event an enable PATCH for the given project name? -/
def isPatchFor (name : String) : Event → Bool
  | Event.patch _ n _ => n == name
  | _ => false

/-- Number of enable PATCH requests issued for the given project name. -/
def patchCount (evs : List Event) (name : String) : Nat :=
  (evs.filter (isPatchFor name)).length

/-- Spec-side per-scan flag: the value at key `k`, then `enabled`, in the
given managed-scan mapping is truthy (an absent key reads as `None`). -/
def specFlag (msc : List (String × Json)) (k : String) : Bool :=
  match dictGet msc k with
  | some (Json.obj sc) => ((dictGet sc "enabled").getD Json.null).truthy
  | _ => false

/-- A JSON value that is a dict or falsy: the shapes on which the
source's `x.get(...)` after an `or \x7b\x7d` fallback cannot raise. -/
def objOrFalsy : Json → Bool
  | Json.obj _ => true
  | v => !v.truthy

/-- The mappings enumerated by the claim: `managed_scan_config` absent,
falsy, or a dict whose `diff_scan` and `full_scan` entries are in turn
absent, falsy, or dicts (with arbitrary `enabled` values).  Every
combination of absent keys and boolean flags is of this shape. -/
def scanConfigShaped (pd : List (String × Json)) : Bool :=
  match dictGet pd "managed_scan_config" with
  | none => true
  | some (Json.obj msc) =>
      (match dictGet msc "diff_scan" with
       | some w => objOrFalsy w
       | none => true) &&
      (match dictGet msc "full_scan" with
       | some w => objOrFalsy w
       | none => true)
  | some v => !v.truthy

/-- Spec-side reading of the enabled predicate: the value at
`managed_scan_config.<k>.enabled` in the project-detail mapping is truthy. -/
def specScanEnabled (pd : List (String × Json)) (k : String) : Bool :=
  match dictGet pd "managed_scan_config" with
  | some (Json.obj msc) => specFlag msc k
  | _ => false

/-- Oracle used by concrete witnesses: two projects named `a` and `b`,
delivered as a bare JSON list. -/
def c4Api : Api where
  deployments := ⟨200, Json.null⟩
  projectsList := fun _ =>
    ⟨200, Json.arr [Json.obj [("name", Json.str "a")], Json.obj [("name", Json.str "b")]]⟩
  projectDetail := fun _ _ => ⟨200, Json.null⟩
  patchManagedScan := fun _ _ => ⟨200, Json.null⟩

/-- Oracle used by concrete witnesses: a 200 deployments response whose
object body has no `deployments` key. -/
def c9Api : Api where
  deployments := ⟨200, Json.obj []⟩
  projectsList := fun _ => ⟨200, Json.arr []⟩
  projectDetail := fun _ _ => ⟨200, Json.null⟩
  patchManagedScan := fun _ _ => ⟨200, Json.null⟩

/-- Oracle used by concrete witnesses: the per-project detail endpoint
always fails with a 404. -/
def c7Api : Api where
  deployments := ⟨200, Json.null⟩
  projectsList := fun _ => ⟨200, Json.arr [Json.obj [("name", Json.str "a")]]⟩
  projectDetail := fun _ _ => ⟨404, Json.null⟩
  patchManagedScan := fun _ _ => ⟨200, Json.null⟩

/-- Oracle used by concrete witnesses: the detail endpoint answers 200
with a body whose `project` wrapper holds an empty object. -/
def c8Api : Api where
  deployments := ⟨200, Json.null⟩
  projectsList := fun _ => ⟨200, Json.arr [Json.obj [("name", Json.str "a")]]⟩
  projectDetail := fun _ _ => ⟨200, Json.obj [("project", Json.obj [])]⟩
  patchManagedScan := fun _ _ => ⟨200, Json.null⟩

/-- Oracle used by concrete witnesses: project `a` already has both scan
flags enabled, project `b` does not; PATCH always succeeds. -/
def c2Api : Api where
  deployments := ⟨200, Json.null⟩
  projectsList := fun _ =>
    ⟨200, Json.arr [Json.obj [("name", Json.str "a")], Json.obj [("name", Json.str "b")]]⟩
  projectDetail := fun _ n =>
    if n == "a" then
      ⟨200, Json.obj [("project", Json.obj [("managed_scan_config", Json.obj
        [("diff_scan", Json.obj [("enabled", Json.bool true)]),
         ("full_scan", Json.obj [("enabled", Json.bool true)])])])]⟩
    else ⟨200, Json.obj [("name", Json.str "b")]⟩
  patchManagedScan := fun _ _ => ⟨200, Json.null⟩

/-- Oracle used by concrete witnesses: neither project has the flags
enabled; the PATCH for `a` fails with 500, the one for `b` succeeds. -/
def c6Api : Api where
  deployments := ⟨200, Json.null⟩
  projectsList := fun _ =>
    ⟨200, Json.arr [Json.obj [("name", Json.str "a")], Json.obj [("name", Json.str "b")]]⟩
  projectDetail := fun _ n => ⟨200, Json.obj [("name", Json.str n)]⟩
  patchManagedScan := fun _ n => if n == "a" then ⟨500, Json.null⟩ else ⟨200, Json.null⟩

@[simp] theorem progBind_ok {α β : Type} (evs : List Event) (a : α) (f : α → Prog β) :
    Prog.bind (evs, Res.ok a) f = (evs ++ (f a).1, (f a).2) := rfl

@[simp] theorem progBind_exit {α β : Type} (evs : List Event) (c : Nat) (f : α → Prog β) :
    Prog.bind (evs, Res.exit c) f = (evs, Res.exit c) := rfl

@[simp] theorem progBind_crash {α β : Type} (evs : List Event) (f : α → Prog β) :
    Prog.bind (evs, Res.crash) f = (evs, Res.crash) := rfl

@[simp] theorem resBind_ok {α β : Type} (a : α) (f : α → Res β) :
    Res.bind (Res.ok a) f = f a := rfl

@[simp] theorem resBind_exit {α β : Type} (c : Nat) (f : α → Res β) :
    Res.bind (Res.exit c) f = Res.exit c := rfl

@[simp] theorem resBind_crash {α β : Type} (f : α → Res β) :
    Res.bind (Res.crash : Res α) f = Res.crash := rfl

@[simp] theorem dictGet_nil (k : String) : dictGet [] k = none := rfl

@[simp] theorem truthy_null : Json.null.truthy = false := rfl

@[simp] theorem truthy_arr_nil : (Json.arr []).truthy = false := rfl

@[simp] theorem truthy_arr_cons (x : Json) (xs : List Json) :
    (Json.arr (x :: xs)).truthy = true := by simp [Json.truthy]

@[simp] theorem truthy_str (s : String) : (Json.str s).truthy = (s != "") := rfl

theorem dictGet_cons (k k2 : String) (v : Json) (tl : List (String × Json)) :
    dictGet ((k2, v) :: tl) k = if k2 == k then some v else dictGet tl k := by
  cases h : k2 == k <;> simp [dictGet, List.find?_cons, h]

@[simp] theorem pyGet_obj (kvs : List (String × Json)) (k : String) :
    Json.pyGet (Json.obj kvs) k = Res.ok ((dictGet kvs k).getD Json.null) := rfl

@[simp] theorem pyOr_obj_cons (hd : String × Json) (tl : List (String × Json)) (b : Json) :
    pyOr (Json.obj (hd :: tl)) b = Json.obj (hd :: tl) := by
  simp [pyOr, Json.truthy]

/-- Auxiliary characterization of the `(msc.get(k) or \x7b\x7d).get("enabled")`
step of the enabled predicate. -/
theorem scan_enabled_lookup (msc : List (String × Json)) (k : String) :
    (pyOr ((dictGet msc k).getD Json.null) (Json.obj [])).pyGet "enabled" =
      (match dictGet msc k with
       | some (Json.obj sc) => Res.ok ((dictGet sc "enabled").getD Json.null)
       | some w => if w.truthy then Res.crash else Res.ok Json.null
       | none => Res.ok Json.null) := by
  rcases h : dictGet msc k with _ | w
  · rfl
  · cases w with
    | null => rfl
    | bool b => cases b <;> rfl
    | num n =>
      by_cases hn : n = 0
      · subst hn; rfl
      · simp [pyOr, Json.truthy, Json.pyGet, hn]
    | str s =>
      by_cases hs : s = ""
      · subst hs; rfl
      · simp [pyOr, Json.truthy, Json.pyGet, hs]
    | arr xs => cases xs <;> rfl
    | obj kvs => cases kvs <;> rfl

set_option maxHeartbeats 1000000 in
/-- C1: the feature-enabled predicate returns true exactly when both
`managed_scan_config.diff_scan.enabled` and
`managed_scan_config.full_scan.enabled` are truthy in the project-detail
mapping (first conjunct, over arbitrary mappings); and on every mapping
of the claim's enumerated shapes — each level absent, falsy, or a dict,
covering absent keys, both flags false, and one true one false — the
predicate returns exactly the conjunction of the two flags, so every
non-enabled combination yields `ok false` rather than an error (second
conjunct). -/
theorem C1_feature_enabled_predicate (pd : List (String × Json)) :
    (project_has_sms_enabled (Json.obj pd) = Res.ok true ↔
      specScanEnabled pd "diff_scan" = true ∧ specScanEnabled pd "full_scan" = true) ∧
    (scanConfigShaped pd = true →
      project_has_sms_enabled (Json.obj pd) =
        Res.ok (specScanEnabled pd "diff_scan" && specScanEnabled pd "full_scan")) := by
  constructor
  · rcases hm : dictGet pd "managed_scan_config" with _ | v
    · simp [project_has_sms_enabled, specScanEnabled, Json.pyGet, hm, pyOr, Json.truthy]
    · cases v with
      | obj kvs =>
        cases kvs with
        | nil =>
          simp [project_has_sms_enabled, specScanEnabled, specFlag, Json.pyGet, hm, pyOr,
            Json.truthy]
        | cons hd tl =>
          simp only [project_has_sms_enabled, specScanEnabled, pyGet_obj, hm, resBind_ok,
            Option.getD_some, pyOr_obj_cons]
          rw [scan_enabled_lookup, scan_enabled_lookup]
          rcases hd1 : dictGet (hd :: tl) "diff_scan" with _ | w
          · simp [specFlag, hd1, Json.truthy]
          · cases w with
            | obj sc =>
              simp only [specFlag, hd1]
              generalize (dictGet sc "enabled").getD Json.null = u
              cases hb : u.truthy with
              | false => simp [hb]
              | true =>
                rcases hd2 : dictGet (hd :: tl) "full_scan" with _ | x
                · simp only [resBind_ok]; rw [hb]; simp [hd2, Json.truthy]
                · cases x with
                  | obj fc => simp only [resBind_ok]; rw [hb]; simp [hd2]
                  | null => simp only [resBind_ok]; rw [hb]; simp [hd2, Json.truthy]
                  | bool b =>
                    cases b <;> simp only [resBind_ok] <;> rw [hb] <;>
                      simp [hd2, Json.truthy]
                  | num n =>
                    by_cases hn : n = 0 <;> simp only [resBind_ok] <;> rw [hb] <;>
                      simp [hd2, Json.truthy, hn]
                  | str s =>
                    by_cases hs : s = "" <;> simp only [resBind_ok] <;> rw [hb] <;>
                      simp [hd2, Json.truthy, hs]
                  | arr xs =>
                    cases xs <;> simp only [resBind_ok] <;> rw [hb] <;>
                      simp [hd2, Json.truthy]
            | null => simp [specFlag, hd1, Json.truthy]
            | bool b => cases b <;> simp [specFlag, hd1, Json.truthy]
            | num n => by_cases hn : n = 0 <;> simp [specFlag, hd1, Json.truthy, hn]
            | str s => by_cases hs : s = "" <;> simp [specFlag, hd1, Json.truthy, hs]
            | arr xs => cases xs <;> simp [specFlag, hd1, Json.truthy]
      | null =>
        simp [project_has_sms_enabled, specScanEnabled, specFlag, Json.pyGet, hm, pyOr,
          Json.truthy]
      | bool b =>
        cases b <;>
          simp [project_has_sms_enabled, specScanEnabled, specFlag, Json.pyGet, hm, pyOr,
            Json.truthy]
      | num n =>
        by_cases hn : n = 0 <;>
          simp [project_has_sms_enabled, specScanEnabled, specFlag, Json.pyGet, hm, pyOr,
            Json.truthy, hn]
      | str s =>
        by_cases hs : s = "" <;>
          simp [project_has_sms_enabled, specScanEnabled, specFlag, Json.pyGet, hm, pyOr,
            Json.truthy, hs]
      | arr xs =>
        cases xs <;>
          simp [project_has_sms_enabled, specScanEnabled, specFlag, Json.pyGet, hm, pyOr,
            Json.truthy]
  · intro hsh
    rcases hm : dictGet pd "managed_scan_config" with _ | v
    · simp [project_has_sms_enabled, specScanEnabled, Json.pyGet, hm, pyOr, Json.truthy]
    · cases v with
      | obj kvs =>
        cases kvs with
        | nil =>
          simp [project_has_sms_enabled, specScanEnabled, specFlag, Json.pyGet, hm, pyOr,
            Json.truthy]
        | cons hd tl =>
          simp only [scanConfigShaped, hm, Bool.and_eq_true] at hsh
          obtain ⟨hshd, hshf⟩ := hsh
          simp only [project_has_sms_enabled, specScanEnabled, pyGet_obj, hm, resBind_ok,
            Option.getD_some, pyOr_obj_cons]
          rw [scan_enabled_lookup, scan_enabled_lookup]
          rcases hd1 : dictGet (hd :: tl) "diff_scan" with _ | w
          · simp [specFlag, hd1, Json.truthy]
          · simp only [hd1] at hshd
            cases w with
            | obj sc =>
              simp only [specFlag, hd1]
              generalize (dictGet sc "enabled").getD Json.null = u
              cases hb : u.truthy with
              | false => simp [hb]
              | true =>
                rcases hd2 : dictGet (hd :: tl) "full_scan" with _ | x
                · simp only [resBind_ok]; rw [hb]; simp [specFlag, hd2, Json.truthy]
                · simp only [hd2] at hshf
                  cases x with
                  | obj fc => simp only [resBind_ok]; rw [hb]; simp [specFlag, hd2]
                  | null => simp only [resBind_ok]; rw [hb]; simp [specFlag, hd2, Json.truthy]
                  | bool b =>
                    simp [objOrFalsy, Json.truthy] at hshf
                    subst hshf
                    simp only [resBind_ok]; rw [hb]; simp [specFlag, hd2, Json.truthy]
                  | num n =>
                    simp [objOrFalsy, Json.truthy] at hshf
                    simp only [resBind_ok]; rw [hb]; simp [specFlag, hd2, Json.truthy, hshf]
                  | str t =>
                    simp [objOrFalsy, Json.truthy] at hshf
                    simp only [resBind_ok]; rw [hb]; simp [specFlag, hd2, Json.truthy, hshf]
                  | arr xs =>
                    simp [objOrFalsy, Json.truthy] at hshf
                    simp only [resBind_ok]; rw [hb]; simp [specFlag, hd2, Json.truthy, hshf]
            | null => simp [specFlag, hd1, Json.truthy]
            | bool b =>
              simp [objOrFalsy, Json.truthy] at hshd
              subst hshd
              simp [specFlag, hd1, Json.truthy]
            | num n =>
              simp [objOrFalsy, Json.truthy] at hshd
              simp [specFlag, hd1, Json.truthy, hshd]
            | str t =>
              simp [objOrFalsy, Json.truthy] at hshd
              simp [specFlag, hd1, Json.truthy, hshd]
            | arr xs =>
              simp [objOrFalsy, Json.truthy] at hshd
              simp [specFlag, hd1, Json.truthy, hshd]
      | null =>
        simp [project_has_sms_enabled, specScanEnabled, specFlag, Json.pyGet, hm, pyOr,
          Json.truthy]
      | bool b =>
        simp [scanConfigShaped, hm, Json.truthy] at hsh
        subst hsh
        simp [project_has_sms_enabled, specScanEnabled, specFlag, Json.pyGet, hm, pyOr,
          Json.truthy]
      | num n =>
        simp [scanConfigShaped, hm, Json.truthy] at hsh
        simp [project_has_sms_enabled, specScanEnabled, specFlag, Json.pyGet, hm, pyOr,
          Json.truthy, hsh]
      | str t =>
        simp [scanConfigShaped, hm, Json.truthy] at hsh
        simp [project_has_sms_enabled, specScanEnabled, specFlag, Json.pyGet, hm, pyOr,
          Json.truthy, hsh]
      | arr xs =>
        simp [scanConfigShaped, hm, Json.truthy] at hsh
        simp [project_has_sms_enabled, specScanEnabled, specFlag, Json.pyGet, hm, pyOr,
          Json.truthy, hsh]

/-- Witness for C1: a mapping with both flags enabled is classified
enabled, and one with `full_scan.enabled = false` evaluates to
`ok false` — not an error — both via the main theorem. -/
theorem C1_feature_enabled_predicate_witness :
    project_has_sms_enabled (Json.obj
      [("managed_scan_config", Json.obj
        [("diff_scan", Json.obj [("enabled", Json.bool true)]),
         ("full_scan", Json.obj [("enabled", Json.bool true)])])]) = Res.ok true ∧
    project_has_sms_enabled (Json.obj
      [("managed_scan_config", Json.obj
        [("diff_scan", Json.obj [("enabled", Json.bool true)]),
         ("full_scan", Json.obj [("enabled", Json.bool false)])])]) = Res.ok false :=
  ⟨(C1_feature_enabled_predicate
     [("managed_scan_config", Json.obj
       [("diff_scan", Json.obj [("enabled", Json.bool true)]),
        ("full_scan", Json.obj [("enabled", Json.bool true)])])]).1.mpr ⟨rfl, rfl⟩,
   (C1_feature_enabled_predicate
     [("managed_scan_config", Json.obj
       [("diff_scan", Json.obj [("enabled", Json.bool true)]),
        ("full_scan", Json.obj [("enabled", Json.bool false)])])]).2 rfl⟩

/-- C3: in dry-run mode the feature enabler issues no PATCH request and
records exactly the dry-run log line carrying the request target (slug
and name) and the JSON body it would have sent, for every oracle, slug
and project name. -/
theorem C3_dry_run_no_patch (api : Api) (deployment_slug : Json) (name : String) :
    enable_sms_for_project api deployment_slug (Json.str name) true =
      ([Event.logDryRun deployment_slug name sms_payload], Res.ok ()) := rfl

/-- C4: on a 200 projects-list response the enumerator returns a bare
list body as-is and the value under the `projects` key of an object
body; any other body shape terminates the run with exit code 1. -/
theorem C4_projects_response_shapes (api : Api) (slug : Json)
    (h200 : (api.projectsList slug).status = 200) :
    (∀ xs, (api.projectsList slug).body = Json.arr xs →
      get_all_projects api slug = ([Event.getProjects slug], Res.ok (Json.arr xs))) ∧
    (∀ kvs v, (api.projectsList slug).body = Json.obj kvs →
      dictGet kvs "projects" = some v →
      get_all_projects api slug = ([Event.getProjects slug], Res.ok v)) ∧
    ((∀ xs, (api.projectsList slug).body ≠ Json.arr xs) →
     (∀ kvs, (api.projectsList slug).body = Json.obj kvs → dictGet kvs "projects" = none) →
      get_all_projects api slug = ([Event.getProjects slug], Res.exit 1)) := by
  refine ⟨?_, ?_, ?_⟩
  · intro xs hb
    simp [get_all_projects, Prog.emit, Prog.pure, Prog.exit, h200, hb]
  · intro kvs v hb hp
    simp [get_all_projects, Prog.emit, Prog.pure, Prog.exit, h200, hb, hp]
  · intro h1 h2
    rcases hb : (api.projectsList slug).body with _ | b | n | t | xs | kvs
    · simp [get_all_projects, Prog.emit, Prog.pure, Prog.exit, h200, hb]
    · simp [get_all_projects, Prog.emit, Prog.pure, Prog.exit, h200, hb]
    · simp [get_all_projects, Prog.emit, Prog.pure, Prog.exit, h200, hb]
    · simp [get_all_projects, Prog.emit, Prog.pure, Prog.exit, h200, hb]
    · exact absurd hb (h1 xs)
    · simp [get_all_projects, Prog.emit, Prog.pure, Prog.exit, h200, hb, h2 kvs hb]

/-- Witness for C4: the bare list `[{name:a},{name:b}]` is returned
exactly, via the main theorem. -/
theorem C4_projects_response_shapes_witness :
    get_all_projects c4Api (Json.str "d") =
      ([Event.getProjects (Json.str "d")],
       Res.ok (Json.arr [Json.obj [("name", Json.str "a")], Json.obj [("name", Json.str "b")]])) :=
  (C4_projects_response_shapes c4Api (Json.str "d") rfl).1 _ rfl

/-- C5: an explicitly given (truthy) slug is returned unchanged with no
network call; on the auto-resolve path a non-200 deployments response,
an empty deployments list, or a first deployment without a `slug` key
each terminate the run with exit code 1 right after the single
deployments request; with more than one deployment a warning is emitted
and the first entry's slug is returned. -/
theorem C5_deployment_resolver (api : Api) :
    (∀ s, s ≠ "" → resolve_deployment_slug api (some s) = ([], Res.ok (Json.str s))) ∧
    ((api.deployments).status ≠ 200 →
      resolve_deployment_slug api none = ([Event.getDeployments], Res.exit 1)) ∧
    (∀ kvs, (api.deployments).status = 200 → (api.deployments).body = Json.obj kvs →
      (dictGet kvs "deployments" = some (Json.arr []) →
        resolve_deployment_slug api none = ([Event.getDeployments], Res.exit 1)) ∧
      (∀ dk rest, dictGet kvs "deployments" = some (Json.arr (Json.obj dk :: rest)) →
        (dictGet dk "slug" = none →
          resolve_deployment_slug api none =
            ([Event.getDeployments] ++ (if rest.isEmpty then [] else [Event.warnMultiple]),
             Res.exit 1)) ∧
        (∀ v, dictGet dk "slug" = some v → v.truthy = true →
          resolve_deployment_slug api none =
            ([Event.getDeployments] ++ (if rest.isEmpty then [] else [Event.warnMultiple]),
             Res.ok v)))) := by
  refine ⟨?_, ?_, ?_⟩
  · intro s hs
    simp [resolve_deployment_slug, truthyOptStr, hs, Prog.pure]
  · intro h
    simp [resolve_deployment_slug, truthyOptStr, Prog.emit, Prog.exit, h]
  · intro kvs h200 hbody
    refine ⟨?_, ?_⟩
    · intro hd
      simp [resolve_deployment_slug, truthyOptStr, Prog.emit, Prog.exit, Prog.lift,
        Prog.pure, h200, hbody, hd, pyOr, Json.truthy]
    · intro dk rest hd
      refine ⟨?_, ?_⟩
      · intro hs
        rcases rest with _ | ⟨r, rs⟩
        · simp [resolve_deployment_slug, truthyOptStr, Prog.emit, Prog.exit, Prog.lift,
            Prog.pure, h200, hbody, hd, hs, pyOr, Json.truthy, pyLen, pyIndexZero]
        · have hgt : 1 < rs.length + 1 + 1 := by omega
          simp [resolve_deployment_slug, truthyOptStr, Prog.emit, Prog.exit, Prog.lift,
            Prog.pure, h200, hbody, hd, hs, pyOr, Json.truthy, pyLen, pyIndexZero, hgt]
      · intro v hs hv
        rcases rest with _ | ⟨r, rs⟩
        · simp [resolve_deployment_slug, truthyOptStr, Prog.emit, Prog.exit, Prog.lift,
            Prog.pure, h200, hbody, hd, hs, hv, pyOr, pyLen, pyIndexZero]
        · have hgt : 1 < rs.length + 1 + 1 := by omega
          simp [resolve_deployment_slug, truthyOptStr, Prog.emit, Prog.exit, Prog.lift,
            Prog.pure, h200, hbody, hd, hs, hv, pyOr, pyLen, pyIndexZero, hgt]

/-- Witness for C5: an explicit slug is passed through unchanged, via
the main theorem. -/
theorem C5_deployment_resolver_witness :
    resolve_deployment_slug c4Api (some "x") = ([], Res.ok (Json.str "x")) :=
  (C5_deployment_resolver c4Api).1 "x" (by decide)

/-- C9: on the auto-resolve path a 200 object response without a
`deployments` key, or with that key holding `null` or an empty list, is
treated as no deployments found and exits with code 1; a 200 bare-list
response is not tolerated (the `.get` on a list raises). -/
theorem C9_deployments_key_reading (api : Api) (h200 : (api.deployments).status = 200) :
    (∀ kvs, (api.deployments).body = Json.obj kvs →
      dictGet kvs "deployments" = none ∨ dictGet kvs "deployments" = some Json.null ∨
        dictGet kvs "deployments" = some (Json.arr []) →
      resolve_deployment_slug api none = ([Event.getDeployments], Res.exit 1)) ∧
    (∀ xs, (api.deployments).body = Json.arr xs →
      resolve_deployment_slug api none = ([Event.getDeployments], Res.crash)) := by
  constructor
  · intro kvs hbody hcase
    rcases hcase with hd | hd | hd <;>
      simp [resolve_deployment_slug, truthyOptStr, Prog.emit, Prog.exit, Prog.lift,
        Prog.pure, h200, hbody, hd, pyOr, Json.truthy]
  · intro xs hbody
    simp [resolve_deployment_slug, truthyOptStr, Prog.emit, Prog.exit, Prog.lift,
      Prog.pure, h200, hbody, Json.pyGet]

/-- Witness for C9: a 200 object response without a `deployments` key
exits with code 1, via the main theorem. -/
theorem C9_deployments_key_reading_witness :
    resolve_deployment_slug c9Api none = ([Event.getDeployments], Res.exit 1) :=
  (C9_deployments_key_reading c9Api rfl).1 [] rfl (Or.inl rfl)

/-- C7: a non-200 detail response is non-fatal: the fetcher records the
request and a warning and returns `None`, and the filtering loop skips
that project, continuing with the remainder of the list unchanged. -/
theorem C7_detail_non200_skips (api : Api) (slugJ : Json) (name : String) (p : Json)
    (rest : List Json)
    (hsel : select_project_name p = Res.ok (Json.str name)) (hne : name ≠ "")
    (hst : (api.projectDetail slugJ name).status ≠ 200) :
    get_project_details api slugJ (Json.str name) =
      ([Event.getDetail slugJ name, Event.warnDetailFailed name], Res.ok Json.null) ∧
    filter_projects api slugJ (p :: rest) =
      (Event.getDetail slugJ name :: Event.warnDetailFailed name ::
        (filter_projects api slugJ rest).1,
       (filter_projects api slugJ rest).2) := by
  constructor
  · simp [get_project_details, asPyStr, Prog.lift, Prog.emit, Prog.pure, hst]
  · simp [filter_projects, Prog.lift, hsel, Json.truthy, hne, get_project_details, asPyStr,
      Prog.emit, Prog.pure, hst]

/-- Witness for C7: a 404 detail response yields the warning and a
`None` result, via the main theorem. -/
theorem C7_detail_non200_skips_witness :
    get_project_details c7Api (Json.str "d") (Json.str "a") =
      ([Event.getDetail (Json.str "d") "a", Event.warnDetailFailed "a"], Res.ok Json.null) :=
  (C7_detail_non200_skips c7Api (Json.str "d") "a" (Json.obj [("name", Json.str "a")]) []
    rfl (by decide) (by decide)).1

/-- C8: a 200 detail response whose (unwrapped) body is falsy makes the
filtering loop skip the project entirely: no skip or todo
classification is recorded and the result is that of the remaining
projects alone. -/
theorem C8_falsy_details_skipped (api : Api) (slugJ : Json) (name : String) (p : Json)
    (rest : List Json)
    (hsel : select_project_name p = Res.ok (Json.str name)) (hne : name ≠ "")
    (hst : (api.projectDetail slugJ name).status = 200)
    (hft : (unwrap_project (api.projectDetail slugJ name).body).truthy = false) :
    filter_projects api slugJ (p :: rest) =
      (Event.getDetail slugJ name :: (filter_projects api slugJ rest).1,
       (filter_projects api slugJ rest).2) := by
  simp [filter_projects, Prog.lift, hsel, hne, get_project_details, asPyStr,
    Prog.emit, Prog.pure, hst, hft]

/-- Witness for C8: a 200 response wrapping an empty `project` object is
skipped, via the main theorem. -/
theorem C8_falsy_details_skipped_witness :
    filter_projects c8Api (Json.str "d") [Json.obj [("name", Json.str "a")]] =
      ([Event.getDetail (Json.str "d") "a"], Res.ok []) :=
  C8_falsy_details_skipped c8Api (Json.str "d") "a" (Json.obj [("name", Json.str "a")]) []
    rfl (by decide) rfl rfl

/-- C10: the orchestrator picks the project identifier as the first
truthy value of the keys `name`, `project_name`, `slug` in that order
(the `slug` value is used as-is when the first two are falsy), and an
entry in which all three are falsy is skipped with a warning, with no
detail fetch or enable call for it. -/
theorem C10_project_name_selection (api : Api) (slugJ : Json)
    (kvs : List (String × Json)) (rest : List Json) :
    (((dictGet kvs "name").getD Json.null).truthy = true →
      select_project_name (Json.obj kvs) = Res.ok ((dictGet kvs "name").getD Json.null)) ∧
    (((dictGet kvs "name").getD Json.null).truthy = false →
      ((dictGet kvs "project_name").getD Json.null).truthy = true →
      select_project_name (Json.obj kvs) =
        Res.ok ((dictGet kvs "project_name").getD Json.null)) ∧
    (((dictGet kvs "name").getD Json.null).truthy = false →
      ((dictGet kvs "project_name").getD Json.null).truthy = false →
      select_project_name (Json.obj kvs) = Res.ok ((dictGet kvs "slug").getD Json.null)) ∧
    (((dictGet kvs "name").getD Json.null).truthy = false →
      ((dictGet kvs "project_name").getD Json.null).truthy = false →
      ((dictGet kvs "slug").getD Json.null).truthy = false →
      filter_projects api slugJ (Json.obj kvs :: rest) =
        (Event.warnNoName :: (filter_projects api slugJ rest).1,
         (filter_projects api slugJ rest).2)) := by
  refine ⟨?_, ?_, ?_, ?_⟩
  · intro h1
    simp [select_project_name, pyOr, h1]
  · intro h1 h2
    simp [select_project_name, pyOr, h1, h2]
  · intro h1 h2
    simp [select_project_name, pyOr, h1, h2]
  · intro h1 h2 h3
    simp [filter_projects, select_project_name, Prog.lift, Prog.emit, pyOr, h1, h2, h3]

/-- Witness for C10: an entry carrying only a truthy `name` key selects
that value, via the main theorem. -/
theorem C10_project_name_selection_witness :
    select_project_name (Json.obj [("name", Json.str "a")]) = Res.ok (Json.str "a") :=
  (C10_project_name_selection c4Api Json.null [("name", Json.str "a")] []).1 rfl

/-- C2: in a full (non-dry-run) run over a project list holding a
project A whose details show both scan flags enabled and a project B
whose details do not, no enable PATCH is issued for A and exactly one
enable PATCH is issued for B. -/
theorem C2_full_run_patches_only_missing (api : Api) (nameA nameB : String)
    (hAB : nameA ≠ nameB) (hnA : nameA ≠ "") (hnB : nameB ≠ "")
    (hp : api.projectsList (Json.str "d") =
      ⟨200, Json.arr [Json.obj [("name", Json.str nameA)],
                      Json.obj [("name", Json.str nameB)]]⟩)
    (hA : (api.projectDetail (Json.str "d") nameA).status = 200)
    (hB : (api.projectDetail (Json.str "d") nameB).status = 200)
    (hAt : (unwrap_project (api.projectDetail (Json.str "d") nameA).body).truthy = true)
    (hBt : (unwrap_project (api.projectDetail (Json.str "d") nameB).body).truthy = true)
    (hAe : project_has_sms_enabled
      (unwrap_project (api.projectDetail (Json.str "d") nameA).body) = Res.ok true)
    (hBe : project_has_sms_enabled
      (unwrap_project (api.projectDetail (Json.str "d") nameB).body) = Res.ok false) :
    patchCount (Prog.events (main api (some "d") (some "t") none false)) nameA = 0 ∧
    patchCount (Prog.events (main api (some "d") (some "t") none false)) nameB = 1 := by
  have hAB2 : nameB ≠ nameA := hAB.symm
  by_cases hc : (api.patchManagedScan (Json.str "d") nameB).status ≠ 200 ∧
      (api.patchManagedScan (Json.str "d") nameB).status ≠ 204 <;>
    simp [main, pyOrStrOpt, truthyOptStr, resolve_deployment_slug, get_all_projects,
      Prog.emit, Prog.pure, Prog.lift, Prog.exit, Prog.events, hp, pyLen, pyIter,
      filter_projects, select_project_name, pyOr, get_project_details, asPyStr,
      hA, hB, hAt, hBt, hAe, hBe, hnA, hnB, enable_pass, enable_sms_for_project, hc,
      patchCount, isPatchFor, hAB2, dictGet_cons]

/-- Witness for C2: with project `a` enabled and `b` not, the concrete
run patches only `b`, via the main theorem. -/
theorem C2_full_run_patches_only_missing_witness :
    patchCount (Prog.events (main c2Api (some "d") (some "t") none false)) "a" = 0 ∧
    patchCount (Prog.events (main c2Api (some "d") (some "t") none false)) "b" = 1 :=
  C2_full_run_patches_only_missing c2Api "a" "b" (by decide) (by decide) (by decide)
    rfl rfl rfl rfl rfl rfl rfl

/-- C6: a PATCH status of 200 or 204 is logged as success and any other
status as a per-project error, both returning normally; in a run where
the first PATCH fails with 500, the second project is still processed
(both are patched exactly once) and the process exits with code 0. -/
theorem C6_patch_failure_non_fatal (api : Api) (nameA nameB : String)
    (hAB : nameA ≠ nameB) (hnA : nameA ≠ "") (hnB : nameB ≠ "")
    (hp : api.projectsList (Json.str "d") =
      ⟨200, Json.arr [Json.obj [("name", Json.str nameA)],
                      Json.obj [("name", Json.str nameB)]]⟩)
    (hA : (api.projectDetail (Json.str "d") nameA).status = 200)
    (hB : (api.projectDetail (Json.str "d") nameB).status = 200)
    (hAt : (unwrap_project (api.projectDetail (Json.str "d") nameA).body).truthy = true)
    (hBt : (unwrap_project (api.projectDetail (Json.str "d") nameB).body).truthy = true)
    (hAe : project_has_sms_enabled
      (unwrap_project (api.projectDetail (Json.str "d") nameA).body) = Res.ok false)
    (hBe : project_has_sms_enabled
      (unwrap_project (api.projectDetail (Json.str "d") nameB).body) = Res.ok false)
    (hPa : (api.patchManagedScan (Json.str "d") nameA).status = 500)
    (hPb : (api.patchManagedScan (Json.str "d") nameB).status = 200) :
    (∀ slugJ n, (api.patchManagedScan slugJ n).status ≠ 200 →
      (api.patchManagedScan slugJ n).status ≠ 204 →
      enable_sms_for_project api slugJ (Json.str n) false =
        ([Event.patch slugJ n sms_payload, Event.logEnableError n], Res.ok ())) ∧
    (∀ slugJ n, (api.patchManagedScan slugJ n).status = 200 ∨
      (api.patchManagedScan slugJ n).status = 204 →
      enable_sms_for_project api slugJ (Json.str n) false =
        ([Event.patch slugJ n sms_payload, Event.logEnableOk n], Res.ok ())) ∧
    process_exit_code (main api (some "d") (some "t") none false) = 0 ∧
    patchCount (Prog.events (main api (some "d") (some "t") none false)) nameA = 1 ∧
    patchCount (Prog.events (main api (some "d") (some "t") none false)) nameB = 1 ∧
    Event.logEnableError nameA ∈ Prog.events (main api (some "d") (some "t") none false) ∧
    Event.logEnableOk nameB ∈ Prog.events (main api (some "d") (some "t") none false) := by
  have hAB2 : nameB ≠ nameA := hAB.symm
  refine ⟨?_, ?_, ?_⟩
  · intro slugJ n h1 h2
    simp [enable_sms_for_project, asPyStr, Prog.lift, Prog.emit, h1, h2]
  · intro slugJ n h12
    rcases h12 with h1 | h1 <;>
      simp [enable_sms_for_project, asPyStr, Prog.lift, Prog.emit, h1]
  · simp [main, pyOrStrOpt, truthyOptStr, resolve_deployment_slug, get_all_projects,
      Prog.emit, Prog.pure, Prog.lift, Prog.exit, Prog.events, hp, pyLen, pyIter,
      filter_projects, select_project_name, pyOr, get_project_details, asPyStr,
      hA, hB, hAt, hBt, hAe, hBe, hnA, hnB, enable_pass, enable_sms_for_project,
      hPa, hPb, patchCount, isPatchFor, hAB, hAB2, dictGet_cons, process_exit_code]

/-- Witness for C6: with the PATCH for `a` failing with 500, the
concrete run still exits with code 0, via the main theorem. -/
theorem C6_patch_failure_non_fatal_witness :
    process_exit_code (main c6Api (some "d") (some "t") none false) = 0 :=
  (C6_patch_failure_non_fatal c6Api "a" "b" (by decide) (by decide) (by decide)
    rfl rfl rfl rfl rfl rfl rfl rfl rfl).2.2.1

end EnableSms
